import Mathlib

/-!
Shallow embedding of the BITS leave-form generator (source file src/App.tsx).

JavaScript numbers are modelled as exact rationals, machine strings as
Lean strings (one Lean character per JavaScript character).  The two
document renderers are modelled as pure builders of draw-operation lists
(overlay renderer) and paragraph lists (flow renderer); the asynchronous
steps of each export (template fetch, container packaging) are modelled
as explicit parameters and big-step relations.  The external pdf-lib text
metric widthOfTextAtSize is modelled as an additive per-character width
table scaled by the font size.
-/

/-- JavaScript Math.round: round half toward positive infinity. -/
def jround (q : ℚ) : ℤ := ⌊q + 1 / 2⌋

/-- JavaScript a || b on strings: the empty string is the falsy case. -/
def jsOr (a b : String) : String := if a = "" then b else a

/-- JavaScript String.prototype.includes. -/
def jsIncludes (s search : String) : Bool :=
  if search = "" then true else (s.splitOn search).length != 1

/-- The characters matched by the JavaScript regular-expression class \s. -/
def jsWhitespace (c : Char) : Bool :=
  [' ', '\t', '\n', '\r', '\x0b', '\x0c', '\u00A0', '\u1680', '\u2000',
   '\u2001', '\u2002', '\u2003', '\u2004', '\u2005', '\u2006', '\u2007',
   '\u2008', '\u2009', '\u200A', '\u2028', '\u2029', '\u202F', '\u205F',
   '\u3000', '\uFEFF'].contains c

/-- One pass of value.replace over the character list: every maximal run of
whitespace becomes a single space.  The flag records whether the previous
character belonged to a whitespace run whose space was already emitted. -/
def collapseWsAux : Bool → List Char → List Char
  | _, [] => []
  | prevWs, c :: cs =>
    if jsWhitespace c then
      if prevWs then collapseWsAux true cs
      else ' ' :: collapseWsAux true cs
    else c :: collapseWsAux false cs

/-- JavaScript String.prototype.trim over the character list. -/
def trimChars (l : List Char) : List Char :=
  ((l.dropWhile jsWhitespace).reverse.dropWhile jsWhitespace).reverse

/-- normalizeText from src/App.tsx line 97:
value.replace with the whitespace-run pattern and a single space,
followed by trim. -/
def normalizeText (value : String) : String :=
  String.mk (trimChars (collapseWsAux false value.data))

/-- formatDate from src/App.tsx lines 99 to 104. -/
def formatDate (isoDate : String) : String :=
  if isoDate = "" then ""
  else
    match isoDate.splitOn "-" with
    | year :: month :: day :: _ =>
      if year = "" ∨ month = "" ∨ day = "" then isoDate
      else day ++ "/" ++ month ++ "/" ++ year
    | _ => isoDate

/-- The FittedDimensions record of src/App.tsx lines 27 to 30. -/
structure FittedDimensions where
  width : ℚ
  height : ℚ
  deriving DecidableEq

/-- fitWithin from src/App.tsx lines 106 to 120.  The JavaScript truthiness
guard on the source dimensions is the equality-with-zero test. -/
def fitWithin (sourceWidth sourceHeight maxWidth maxHeight : ℚ) : FittedDimensions :=
  if sourceWidth = 0 ∨ sourceHeight = 0 then
    { width := maxWidth, height := maxHeight }
  else
    { width := (max 1 (jround (sourceWidth * min (min (maxWidth / sourceWidth) (maxHeight / sourceHeight)) 1)) : ℤ)
      height := (max 1 (jround (sourceHeight * min (min (maxWidth / sourceWidth) (maxHeight / sourceHeight)) 1)) : ℤ) }

/-- The ParentRelation union type of src/App.tsx line 5. -/
inductive ParentRelation
  | mother
  | father
  deriving DecidableEq

/-- The string carried by a ParentRelation value. -/
def ParentRelation.toStr : ParentRelation → String
  | ParentRelation.mother => "mother"
  | ParentRelation.father => "father"

/-- The FormState record of src/App.tsx lines 7 to 23. -/
structure FormState where
  bhawan : String
  parentRelation : ParentRelation
  childName : String
  idNumber : String
  leaveFrom : String
  leaveTo : String
  signatureName : String
  signatureImageDataUrl : String
  signatureImageMimeType : String
  signatureImageWidth : ℚ
  signatureImageHeight : ℚ
  fullName : String
  place : String
  date : String
  mobileNumber : String
  deriving DecidableEq

/-- Modelled from the external pdf-lib dependency: the embedded font metric
font.widthOfTextAtSize, as an additive per-character advance-width table
(cw) scaled by the font size. -/
def widthOfTextAtSize (cw : Char → ℚ) (text : String) (size : ℚ) : ℚ :=
  ((text.data.map cw).sum) * size

/-- The while loop of fitTextToWidth, src/App.tsx lines 318 to 323.  The
argument list is the clipped string in reversed character order, so that
removing the last character (slice with negative index) is structural. -/
def fitLoopRev (cw : Char → ℚ) (maxWidth size : ℚ) : List Char → String
  | [] => ""
  | c :: rest =>
    if widthOfTextAtSize cw (String.mk ((c :: rest).reverse) ++ "...") size ≤ maxWidth then
      String.mk ((c :: rest).reverse) ++ "..."
    else
      fitLoopRev cw maxWidth size rest

/-- fitTextToWidth from src/App.tsx lines 314 to 325. -/
def fitTextToWidth (cw : Char → ℚ) (value : String) (maxWidth size : ℚ) : String :=
  if normalizeText value = "" then ""
  else if widthOfTextAtSize cw (normalizeText value) size ≤ maxWidth then normalizeText value
  else fitLoopRev cw maxWidth size (normalizeText value).data.reverse

/-- One drawing operation issued against the template page by the overlay
renderer: drawRectangle, drawLine, drawText and drawImage calls with the
numeric arguments the source computes. -/
inductive PdfOp
  | rect (x y width height : ℚ)
  | line (x1 y1 x2 y2 thickness : ℚ)
  | text (s : String) (x y size : ℚ)
  | image (png : Bool) (x y width height : ℚ)
  deriving DecidableEq

/-- Whether an operation is a drawText call. -/
def PdfOp.isText : PdfOp → Bool
  | PdfOp.text _ _ _ _ => true
  | _ => false

/-- maskField from src/App.tsx lines 304 to 312 (white rectangle). -/
def maskField (pageHeight x yMax width height : ℚ) : PdfOp :=
  PdfOp.rect x (pageHeight - yMax - 1) width height

/-- drawTextOnLine from src/App.tsx lines 327 to 355, as the list of page
operations it issues, in order: optional mask, optional underline rule,
then the fitted text if it is nonempty. -/
def drawTextOnLine (cw : Char → ℚ) (pageHeight : ℚ) (value : String)
    (x yMax maxWidth size : ℚ) (mask underline : Bool) : List PdfOp :=
  (if mask then [maskField pageHeight x yMax maxWidth 14] else []) ++
  (if underline then
      [PdfOp.line x (pageHeight - yMax + 1.2 - 2) (x + maxWidth) (pageHeight - yMax + 1.2 - 2) 0.5]
    else []) ++
  (if fitTextToWidth cw value maxWidth size = "" then []
   else [PdfOp.text (fitTextToWidth cw value maxWidth size) x (pageHeight - yMax + 1.2) size])

/-- The signature branch of buildPdfBlob, src/App.tsx lines 368 to 396. -/
def pdfSignatureOps (cw : Char → ℚ) (pageHeight : ℚ) (formData : FormState) : List PdfOp :=
  if formData.signatureImageDataUrl ≠ "" then
    [PdfOp.image (jsIncludes formData.signatureImageMimeType "png")
      (56.8 + (138 - (fitWithin formData.signatureImageWidth formData.signatureImageHeight 138 40).width) / 2)
      (pageHeight - 385.4 - (fitWithin formData.signatureImageWidth formData.signatureImageHeight 138 40).height -
        (40 - (fitWithin formData.signatureImageWidth formData.signatureImageHeight 138 40).height) / 2)
      (fitWithin formData.signatureImageWidth formData.signatureImageHeight 138 40).width
      (fitWithin formData.signatureImageWidth formData.signatureImageHeight 138 40).height]
  else
    drawTextOnLine cw pageHeight (jsOr formData.signatureName formData.fullName)
      56.8 428.501 138 11.5 true true

/-- The full operation list painted on the template page by buildPdfBlob,
src/App.tsx lines 357 to 396, in source order. -/
def buildPdfOps (cw : Char → ℚ) (pageHeight : ℚ) (formData : FormState) : List PdfOp :=
  drawTextOnLine cw pageHeight formData.bhawan 56.8 169.301 77.5 12 true true ++
  drawTextOnLine cw pageHeight formData.parentRelation.toStr 66.796 255.701 64.95 12 true false ++
  drawTextOnLine cw pageHeight formData.childName 147.916 255.701 180 12 true true ++
  drawTextOnLine cw pageHeight formData.idNumber 427.576 255.701 111 12 true true ++
  drawTextOnLine cw pageHeight (formatDate formData.leaveFrom) 289.216 277.301 108 12 true true ++
  drawTextOnLine cw pageHeight (formatDate formData.leaveTo) 415.06 277.301 123 12 true true ++
  drawTextOnLine cw pageHeight formData.fullName 116.5 471.701 290 12 false false ++
  drawTextOnLine cw pageHeight formData.place 90 493.301 312 12 false false ++
  drawTextOnLine cw pageHeight (formatDate formData.date) 441 493.301 95 12 false false ++
  drawTextOnLine cw pageHeight formData.mobileNumber 140 514.901 260 12 false false ++
  pdfSignatureOps cw pageHeight formData

/-- Outcome of the template fetch at src/App.tsx lines 295 to 301: either the
response is not ok, or it yields a template whose first page has the given
height. -/
inductive TemplateFetch
  | failed
  | ok (pageHeight : ℚ)

/-- Big-step relation of one buildPdfBlob call (src/App.tsx lines 292 to 400):
a failed template fetch throws, a successful one renders the operation
list for the fetched page. -/
inductive BuildPdf (cw : Char → ℚ) (formData : FormState) :
    TemplateFetch → Except String (List PdfOp) → Prop
  | fetchFailed :
      BuildPdf cw formData TemplateFetch.failed
        (Except.error "Unable to load the consent template PDF.")
  | rendered (pageHeight : ℚ) :
      BuildPdf cw formData (TemplateFetch.ok pageHeight)
        (Except.ok (buildPdfOps cw pageHeight formData))

/-- The DocSignatureImage record of src/App.tsx lines 32 to 37. -/
structure DocSignatureImage where
  data : List ℕ
  type : String
  width : ℚ
  height : ℚ
  deriving DecidableEq

/-- One inline run of the flow (DOCX) renderer. -/
inductive DocxRun
  | plain (text : String)
  | styled (text : String) (bold : Bool) (size : ℕ)
  | underlined (text : String)
  | image (data : List ℕ) (imgType : String) (width height : ℚ)
  deriving DecidableEq

/-- One paragraph of the flow renderer, with the styling the source sets. -/
structure DocxParagraph where
  runs : List DocxRun
  center : Bool
  spacingAfter : ℕ
  tabStopRight : Option ℕ
  deriving DecidableEq

/-- A paragraph holding a single plain run, mirroring the text shorthand of
the docx Paragraph constructor. -/
def textParagraph (text : String) (spacingAfter : ℕ) : DocxParagraph :=
  { runs := [DocxRun.plain text], center := false, spacingAfter := spacingAfter,
    tabStopRight := none }

/-- JavaScript String.prototype.padEnd with a single-space pad character. -/
def padEnd (s : String) (targetLength : ℕ) : String :=
  s ++ String.mk (List.replicate (targetLength - s.length) ' ')

/-- underlinedFieldRun from src/App.tsx lines 178 to 182. -/
def underlinedFieldRun (value : String) (minLength : ℕ) : DocxRun :=
  DocxRun.underlined
    (padEnd (normalizeText value) (max minLength ((normalizeText value).length + 2)))

/-- The signature paragraph of buildDocxDocument, src/App.tsx lines 242
to 261: an inline image run when an image is present, otherwise the
underlined fallback text run. -/
def docxSignatureParagraph (formData : FormState)
    (signatureImage : Option DocSignatureImage) : DocxParagraph :=
  match signatureImage with
  | some s =>
    { runs := [DocxRun.image s.data s.type s.width s.height], center := false,
      spacingAfter := 100, tabStopRight := none }
  | none =>
    { runs := [underlinedFieldRun (jsOr formData.signatureName formData.fullName) 24],
      center := false, spacingAfter := 100, tabStopRight := none }

/-- buildDocxDocument from src/App.tsx lines 163 to 290: the ordered list of
paragraphs of the generated document (the section and page setup carry no
field data and are left to the packaging step). -/
def buildDocxDocument (formData : FormState)
    (signatureImage : Option DocSignatureImage) : List DocxParagraph :=
  [ { runs := [DocxRun.styled "Parent Consent Form" true 30], center := true,
      spacingAfter := 380, tabStopRight := none },
    textParagraph "To" 120,
    textParagraph "The Warden" 120,
    { runs := [underlinedFieldRun formData.bhawan 16, DocxRun.plain " Bhawan"],
      center := false, spacingAfter := 120, tabStopRight := none },
    textParagraph "BITS Pilani, Pilani Campus" 120,
    textParagraph "Dear Madam/Sir," 240,
    { runs := [DocxRun.plain "I, ", DocxRun.plain formData.parentRelation.toStr,
        DocxRun.plain " of ", underlinedFieldRun formData.childName 34,
        DocxRun.plain " bearing ID Number ", underlinedFieldRun formData.idNumber 20,
        DocxRun.plain ","],
      center := false, spacingAfter := 200, tabStopRight := none },
    { runs := [DocxRun.plain "am aware of my child applying for leave from ",
        underlinedFieldRun (formatDate formData.leaveFrom) 16, DocxRun.plain " to ",
        underlinedFieldRun (formatDate formData.leaveTo) 16, DocxRun.plain "."],
      center := false, spacingAfter := 200, tabStopRight := none },
    textParagraph "Kindly grant her/him leave for the above-mentioned time period." 160,
    textParagraph "I understand that this leave is granted with the assumption that my child is solely responsible for all" 120,
    textParagraph "the academic assignments of the respective courses that s/he is currently enrolled in." 160,
    textParagraph "Thanking You," 560,
    docxSignatureParagraph formData signatureImage,
    textParagraph "(Signature)" 220,
    { runs := [DocxRun.plain "Full Name: ", underlinedFieldRun formData.fullName 36],
      center := false, spacingAfter := 140, tabStopRight := none },
    { runs := [DocxRun.plain "Place: ", underlinedFieldRun formData.place 18,
        DocxRun.plain "\t", DocxRun.plain "Date: ",
        underlinedFieldRun (formatDate formData.date) 16],
      center := false, spacingAfter := 140, tabStopRight := some 8800 },
    { runs := [DocxRun.plain "Mobile Number: ", underlinedFieldRun formData.mobileNumber 24],
      center := false, spacingAfter := 0, tabStopRight := none } ]

/-- Big-step relation of one buildDocxDocument call: the document handed to
the packer is the paragraph list built from the inputs. -/
inductive BuildDocx (formData : FormState) (signatureImage : Option DocSignatureImage) :
    List DocxParagraph → Prop
  | built : BuildDocx formData signatureImage (buildDocxDocument formData signatureImage)

/-- buildSigImage from src/App.tsx lines 577 to 586; decode stands for the
dataUrlToUint8Array base64 decoding of the stored data URL. -/
def buildSigImage (decode : String → List ℕ) (d : FormState) : Option DocSignatureImage :=
  if d.signatureImageDataUrl = "" then none
  else
    some
      { data := decode d.signatureImageDataUrl,
        type := if jsIncludes d.signatureImageMimeType "png" then "png" else "jpg",
        width := (fitWithin d.signatureImageWidth d.signatureImageHeight 220 70).width,
        height := (fitWithin d.signatureImageWidth d.signatureImageHeight 220 70).height }

/-- The filename closure of src/App.tsx lines 574 to 575. -/
def filename (formData : FormState) (ext : String) : String :=
  jsOr (normalizeText formData.idNumber) "consent-form" ++ "." ++ ext

/-- The CropRect record of src/App.tsx line 25. -/
structure CropRect where
  x : ℚ
  y : ℚ
  w : ℚ
  h : ℚ
  deriving DecidableEq

/-- The geometry of the crop source img element read by applyCrop:
naturalWidth, naturalHeight and the displayed clientWidth, clientHeight. -/
structure ImgGeometry where
  naturalWidth : ℚ
  naturalHeight : ℚ
  clientWidth : ℚ
  clientHeight : ℚ
  deriving DecidableEq

/-- The pieces of component state touched by the crop handlers:
formData plus the cropSource and cropRect state hooks. -/
structure CropAppState where
  formData : FormState
  cropSource : Option String
  cropRect : Option CropRect
  deriving DecidableEq

/-- Result of one applyCrop call: the new component state, and the source
rectangle handed to drawImage (in source-image pixels) when a crop was
actually rasterized. -/
structure CropApplyResult where
  state : CropAppState
  drawn : Option (ℤ × ℤ × ℤ × ℤ)
  deriving DecidableEq

/-- applyCrop from src/App.tsx lines 501 to 532.  img is the current img
element (none when the ref is empty), ctxAvailable the getContext result,
and canvasDataUrl the string canvas.toDataURL returns for the cropped
raster. -/
def applyCrop (img : Option ImgGeometry) (ctxAvailable : Bool) (canvasDataUrl : String)
    (st : CropAppState) : CropApplyResult :=
  match img, st.cropRect with
  | none, _ => { state := st, drawn := none }
  | some _, none => { state := st, drawn := none }
  | some g, some r =>
    if r.w < 5 ∨ r.h < 5 then { state := st, drawn := none }
    else if ctxAvailable = false then { state := st, drawn := none }
    else
      { state :=
          { formData :=
              { st.formData with
                signatureImageDataUrl := canvasDataUrl,
                signatureImageMimeType := "image/png",
                signatureImageWidth := (jround (r.w * (g.naturalWidth / g.clientWidth)) : ℤ),
                signatureImageHeight := (jround (r.h * (g.naturalHeight / g.clientHeight)) : ℤ) },
            cropSource := none,
            cropRect := none },
        drawn := some (jround (r.x * (g.naturalWidth / g.clientWidth)),
                       jround (r.y * (g.naturalHeight / g.clientHeight)),
                       jround (r.w * (g.naturalWidth / g.clientWidth)),
                       jround (r.h * (g.naturalHeight / g.clientHeight))) }

/-- clearSignature from src/App.tsx lines 450 to 460. -/
def clearSignature (st : CropAppState) : CropAppState :=
  { formData :=
      { st.formData with
        signatureImageDataUrl := "",
        signatureImageMimeType := "",
        signatureImageWidth := 0,
        signatureImageHeight := 0 },
    cropSource := none,
    cropRect := none }

/-- The FormState installed by the reset handler, src/App.tsx lines 617 to
630: whatever createInitialFormState returned (init, which depends on
localStorage and on the clock) with every saved field overridden to its
blank value. -/
def resetFormData (init : FormState) : FormState :=
  { init with
    bhawan := "", parentRelation := ParentRelation.father, childName := "",
    idNumber := "", signatureName := "", signatureImageDataUrl := "",
    signatureImageMimeType := "", signatureImageWidth := 0,
    signatureImageHeight := 0, fullName := "", place := "", mobileNumber := "" }

/-- The slice of an uploaded File the handler reads: its MIME type. -/
structure FileInfo where
  type : String
  deriving DecidableEq

/-- The asynchronous reads the upload handler can start, in order. -/
inductive UploadEvent
  | fileRead
  | imageDecode
  deriving DecidableEq

/-- Result of one onSignatureUpload call: the new form data and error
state, whether the file input value was reset to the empty string, and
which asynchronous reads were started. -/
structure UploadResult where
  formData : FormState
  error : Option String
  inputCleared : Bool
  reads : List UploadEvent
  deriving DecidableEq

/-- onSignatureUpload from src/App.tsx lines 462 to 486.  readResult is the
outcome of readFileAsDataUrl and dimResult the outcome of
getImageDimensions, both supplied by the environment. -/
def onSignatureUpload (s : FormState) (error0 : Option String) (file : Option FileInfo)
    (readResult : Except String String)
    (dimResult : Except String FittedDimensions) : UploadResult :=
  match file with
  | none => { formData := s, error := error0, inputCleared := false, reads := [] }
  | some f =>
    if ¬ (f.type = "image/png" ∨ f.type = "image/jpeg") then
      { formData := s, error := some "Use a PNG or JPEG for the signature.",
        inputCleared := true, reads := [] }
    else
      match readResult with
      | Except.error msg =>
        { formData := s, error := some msg, inputCleared := true,
          reads := [UploadEvent.fileRead] }
      | Except.ok dataUrl =>
        match dimResult with
        | Except.error msg =>
          { formData := s, error := some msg, inputCleared := true,
            reads := [UploadEvent.fileRead, UploadEvent.imageDecode] }
        | Except.ok dim =>
          { formData :=
              { s with
                signatureImageDataUrl := dataUrl,
                signatureImageMimeType := f.type,
                signatureImageWidth := dim.width,
                signatureImageHeight := dim.height },
            error := none, inputCleared := true,
            reads := [UploadEvent.fileRead, UploadEvent.imageDecode] }

/-- A rational that is a positive integer. -/
def isPosInt (q : ℚ) : Prop := 0 < q ∧ q.den = 1

instance (q : ℚ) : Decidable (isPosInt q) :=
  inferInstanceAs (Decidable (0 < q ∧ q.den = 1))

/-- The all-or-nothing invariant on the four signature-image fields of
FormState (spec section 3): either a data reference is present with
positive integer dimensions and one of the two recognized MIME kinds, or
all four fields are empty and zero together. -/
def SigInvariant (s : FormState) : Prop :=
  (s.signatureImageDataUrl ≠ "" ∧ isPosInt s.signatureImageWidth ∧
    isPosInt s.signatureImageHeight ∧
    (s.signatureImageMimeType = "image/png" ∨ s.signatureImageMimeType = "image/jpeg")) ∨
  (s.signatureImageDataUrl = "" ∧ s.signatureImageMimeType = "" ∧
    s.signatureImageWidth = 0 ∧ s.signatureImageHeight = 0)

instance (s : FormState) : Decidable (SigInvariant s) :=
  inferInstanceAs (Decidable (_ ∨ _))

/-- A FormState with every field blank, used to instantiate theorems. -/
def emptyFormState : FormState :=
  { bhawan := "", parentRelation := ParentRelation.father, childName := "",
    idNumber := "", leaveFrom := "", leaveTo := "", signatureName := "",
    signatureImageDataUrl := "", signatureImageMimeType := "",
    signatureImageWidth := 0, signatureImageHeight := 0, fullName := "",
    place := "", date := "", mobileNumber := "" }

lemma jround_le_int (x : ℚ) (n : ℤ) (h : x ≤ n) : jround x ≤ n := by
  have h1 : x + 1 / 2 < ((n + 1 : ℤ) : ℚ) := by push_cast; linarith
  have h2 := Int.floor_lt.mpr h1
  unfold jround
  omega

/-- C10: fitWithin returns the box dimensions unchanged whenever either
source dimension is zero, and in particular on a (0, 0) source. -/
theorem fitWithin_zero_source (maxW maxH sw sh : ℚ) :
    fitWithin 0 0 maxW maxH = { width := maxW, height := maxH } ∧
    (sw = 0 ∨ sh = 0 → fitWithin sw sh maxW maxH = { width := maxW, height := maxH }) := by
  constructor
  · rw [fitWithin, if_pos (Or.inl rfl)]
  · intro h
    rw [fitWithin, if_pos h]

/-- Witness for fitWithin_zero_source at concrete inputs. -/
theorem fitWithin_zero_source_witness :
    fitWithin 0 0 220 70 = { width := 220, height := 70 } ∧
    fitWithin 0 7 220 70 = { width := 220, height := 70 } :=
  ⟨(fitWithin_zero_source 220 70 0 7).1,
   (fitWithin_zero_source 220 70 0 7).2 (Or.inl rfl)⟩

/-- C2 (amended): over positive integer source and box dimensions, fitWithin
returns dimensions that fit in the box, are never zero, and do not exceed
the source dimensions when the source exceeds the box. -/
theorem fitWithin_bounds (sw sh mw mh : ℕ) (hsw : 0 < sw) (hsh : 0 < sh)
    (hmw : 0 < mw) (hmh : 0 < mh) :
    (fitWithin (sw : ℚ) (sh : ℚ) (mw : ℚ) (mh : ℚ)).width ≤ (mw : ℚ) ∧
    (fitWithin (sw : ℚ) (sh : ℚ) (mw : ℚ) (mh : ℚ)).height ≤ (mh : ℚ) ∧
    0 < (fitWithin (sw : ℚ) (sh : ℚ) (mw : ℚ) (mh : ℚ)).width ∧
    0 < (fitWithin (sw : ℚ) (sh : ℚ) (mw : ℚ) (mh : ℚ)).height ∧
    (((mw : ℚ) < (sw : ℚ) ∨ (mh : ℚ) < (sh : ℚ)) →
      (fitWithin (sw : ℚ) (sh : ℚ) (mw : ℚ) (mh : ℚ)).width ≤ (sw : ℚ) ∧
      (fitWithin (sw : ℚ) (sh : ℚ) (mw : ℚ) (mh : ℚ)).height ≤ (sh : ℚ)) := by
  have hswQ : (0 : ℚ) < sw := by exact_mod_cast hsw
  have hshQ : (0 : ℚ) < sh := by exact_mod_cast hsh
  have hguard : ¬ ((sw : ℚ) = 0 ∨ (sh : ℚ) = 0) := by
    push_neg
    exact ⟨hswQ.ne', hshQ.ne'⟩
  set scale := min (min ((mw : ℚ) / sw) ((mh : ℚ) / sh)) 1 with hscaledef
  have hfit : fitWithin (sw : ℚ) (sh : ℚ) (mw : ℚ) (mh : ℚ) =
      { width := (max 1 (jround ((sw : ℚ) * scale)) : ℤ),
        height := (max 1 (jround ((sh : ℚ) * scale)) : ℤ) } := by
    rw [fitWithin, if_neg hguard]
  have hscale1 : scale ≤ 1 := min_le_right _ _
  have hscalew : scale ≤ (mw : ℚ) / sw := le_trans (min_le_left _ _) (min_le_left _ _)
  have hscaleh : scale ≤ (mh : ℚ) / sh := le_trans (min_le_left _ _) (min_le_right _ _)
  have hxw : (sw : ℚ) * scale ≤ (mw : ℚ) := by
    have h1 : (sw : ℚ) * scale ≤ (sw : ℚ) * ((mw : ℚ) / sw) :=
      mul_le_mul_of_nonneg_left hscalew hswQ.le
    have h2 : (sw : ℚ) * ((mw : ℚ) / sw) = (mw : ℚ) := by field_simp
    linarith
  have hxh : (sh : ℚ) * scale ≤ (mh : ℚ) := by
    have h1 : (sh : ℚ) * scale ≤ (sh : ℚ) * ((mh : ℚ) / sh) :=
      mul_le_mul_of_nonneg_left hscaleh hshQ.le
    have h2 : (sh : ℚ) * ((mh : ℚ) / sh) = (mh : ℚ) := by field_simp
    linarith
  have hrw : jround ((sw : ℚ) * scale) ≤ (mw : ℤ) :=
    jround_le_int _ _ (by push_cast; exact hxw)
  have hrh : jround ((sh : ℚ) * scale) ≤ (mh : ℤ) :=
    jround_le_int _ _ (by push_cast; exact hxh)
  have hxsw : (sw : ℚ) * scale ≤ (sw : ℚ) := mul_le_of_le_one_right hswQ.le hscale1
  have hxsh : (sh : ℚ) * scale ≤ (sh : ℚ) := mul_le_of_le_one_right hshQ.le hscale1
  have hrsw : jround ((sw : ℚ) * scale) ≤ (sw : ℤ) :=
    jround_le_int _ _ (by push_cast; exact hxsw)
  have hrsh : jround ((sh : ℚ) * scale) ≤ (sh : ℤ) :=
    jround_le_int _ _ (by push_cast; exact hxsh)
  refine ⟨?_, ?_, ?_, ?_, fun _ => ⟨?_, ?_⟩⟩
  · rw [hfit]
    dsimp only
    have h3 : (max 1 (jround ((sw : ℚ) * scale)) : ℤ) ≤ (mw : ℤ) :=
      max_le (by exact_mod_cast hmw) hrw
    exact_mod_cast h3
  · rw [hfit]
    dsimp only
    have h3 : (max 1 (jround ((sh : ℚ) * scale)) : ℤ) ≤ (mh : ℤ) :=
      max_le (by exact_mod_cast hmh) hrh
    exact_mod_cast h3
  · rw [hfit]
    dsimp only
    have h3 : (0 : ℤ) < max 1 (jround ((sw : ℚ) * scale)) :=
      lt_of_lt_of_le zero_lt_one (le_max_left _ _)
    exact_mod_cast h3
  · rw [hfit]
    dsimp only
    have h3 : (0 : ℤ) < max 1 (jround ((sh : ℚ) * scale)) :=
      lt_of_lt_of_le zero_lt_one (le_max_left _ _)
    exact_mod_cast h3
  · rw [hfit]
    dsimp only
    have h3 : (max 1 (jround ((sw : ℚ) * scale)) : ℤ) ≤ (sw : ℤ) :=
      max_le (by exact_mod_cast hsw) hrsw
    exact_mod_cast h3
  · rw [hfit]
    dsimp only
    have h3 : (max 1 (jround ((sh : ℚ) * scale)) : ℤ) ≤ (sh : ℤ) :=
      max_le (by exact_mod_cast hsh) hrsh
    exact_mod_cast h3

/-- Witness for fitWithin_bounds at a concrete input. -/
theorem fitWithin_bounds_witness :
    (fitWithin (400 : ℚ) 300 138 40).width ≤ 138 ∧
    (fitWithin (400 : ℚ) 300 138 40).height ≤ 40 ∧
    0 < (fitWithin (400 : ℚ) 300 138 40).width ∧
    0 < (fitWithin (400 : ℚ) 300 138 40).height ∧
    (((138 : ℚ) < 400 ∨ (40 : ℚ) < 300) →
      (fitWithin (400 : ℚ) 300 138 40).width ≤ 400 ∧
      (fitWithin (400 : ℚ) 300 138 40).height ≤ 300) := by
  have h := fitWithin_bounds 400 300 138 40 (by norm_num) (by norm_num)
    (by norm_num) (by norm_num)
  exact_mod_cast h

/-- Counterexample to C2 as stated: with positive non-integer box
dimensions the returned width exceeds the box (first half), and with a
positive non-integer source dimension the returned width exceeds the
source while the source exceeds the box on the other axis (second half). -/
theorem fitWithin_bounds_counterexample :
    (0 : ℚ) < 3 ∧ (0 : ℚ) < 3 / 2 ∧
    (fitWithin 3 3 (3 / 2) (3 / 2)).width = 2 ∧ (3 / 2 : ℚ) < 2 ∧
    (0 : ℚ) < 27 / 10 ∧ (0 : ℚ) < 100 ∧ (0 : ℚ) < 3 ∧ (0 : ℚ) < 96 ∧
    (96 : ℚ) < 100 ∧
    (fitWithin (27 / 10) 100 3 96).width = 3 ∧ (27 / 10 : ℚ) < 3 := by
  have e1 : fitWithin 3 3 (3 / 2) (3 / 2) = { width := 2, height := 2 } := by
    rw [fitWithin, if_neg (by norm_num)]
    norm_num [jround, min_def, max_def, FittedDimensions.mk.injEq]
  have e2 : fitWithin (27 / 10) 100 3 96 = { width := 3, height := 96 } := by
    rw [fitWithin, if_neg (by norm_num)]
    norm_num [jround, min_def, max_def, FittedDimensions.mk.injEq]
  refine ⟨by norm_num, by norm_num, by rw [e1], by norm_num, by norm_num, by norm_num,
    by norm_num, by norm_num, by norm_num, by rw [e2], by norm_num⟩

/-- A sample crop-source geometry: natural size 1000 by 800, displayed at
500 by 400 (the instance of spec section 8). -/
def demoGeometry : ImgGeometry :=
  { naturalWidth := 1000, naturalHeight := 800, clientWidth := 500, clientHeight := 400 }

/-- The selection rectangle of the spec instance. -/
def demoRect : CropRect := { x := 10, y := 10, w := 50, h := 40 }

/-- A selection rectangle below the 5-pixel threshold on one axis. -/
def demoRectSmall : CropRect := { x := 10, y := 10, w := 4, h := 40 }

/-- C4: applyCrop converts the selection to source-image coordinates by
scaling each axis independently by the natural-to-displayed ratio, and the
output image dimensions are the scaled (rounded) selection dimensions; on
the spec instance (selection 10,10,50,40; display 500 by 400; natural
1000 by 800) the output is exactly 100 by 80 pixels. -/
theorem applyCrop_translates (g : ImgGeometry) (r : CropRect) (st : CropAppState)
    (u : String) (hr : st.cropRect = some r) (hbig : ¬ (r.w < 5 ∨ r.h < 5)) :
    ((applyCrop (some g) true u st).state.formData.signatureImageWidth =
        (jround (r.w * (g.naturalWidth / g.clientWidth)) : ℤ) ∧
      (applyCrop (some g) true u st).state.formData.signatureImageHeight =
        (jround (r.h * (g.naturalHeight / g.clientHeight)) : ℤ) ∧
      (applyCrop (some g) true u st).drawn =
        some (jround (r.x * (g.naturalWidth / g.clientWidth)),
              jround (r.y * (g.naturalHeight / g.clientHeight)),
              jround (r.w * (g.naturalWidth / g.clientWidth)),
              jround (r.h * (g.naturalHeight / g.clientHeight)))) ∧
    ((applyCrop (some demoGeometry) true u
        { formData := st.formData, cropSource := st.cropSource, cropRect := some demoRect }).state.formData.signatureImageWidth = 100 ∧
      (applyCrop (some demoGeometry) true u
        { formData := st.formData, cropSource := st.cropSource, cropRect := some demoRect }).state.formData.signatureImageHeight = 80) := by
  obtain ⟨fd, cs, cr⟩ := st
  change cr = some r at hr
  subst hr
  constructor
  · rw [applyCrop.eq_def]
    dsimp only
    rw [if_neg hbig]
    simp
  · rw [applyCrop.eq_def]
    dsimp only [demoGeometry, demoRect]
    rw [if_neg (by norm_num : ¬ ((50 : ℚ) < 5 ∨ (40 : ℚ) < 5))]
    have hw : jround ((50 : ℚ) * (1000 / 500)) = 100 := by norm_num [jround]
    have hh : jround ((40 : ℚ) * (800 / 400)) = 80 := by norm_num [jround]
    simp [hw, hh]

/-- Witness for applyCrop_translates at a concrete input. -/
theorem applyCrop_translates_witness :
    ((applyCrop (some demoGeometry) true "data:image/png;base64,AAAA"
        { formData := emptyFormState, cropSource := some "s", cropRect := some demoRect }).state.formData.signatureImageWidth =
      (jround ((50 : ℚ) * (1000 / 500)) : ℤ)) ∧
    ((applyCrop (some demoGeometry) true "data:image/png;base64,AAAA"
        { formData := emptyFormState, cropSource := some "s", cropRect := some demoRect }).state.formData.signatureImageWidth = 100) := by
  have h := applyCrop_translates demoGeometry demoRect
    { formData := emptyFormState, cropSource := some "s", cropRect := some demoRect }
    "data:image/png;base64,AAAA" rfl (by norm_num [demoRect])
  exact ⟨h.1.1, h.2.1⟩

/-- C6: confirming a crop whose selection is narrower or shorter than 5
display pixels leaves the whole crop-related state unchanged (form data,
crop source and the selection itself) and rasterizes nothing. -/
theorem applyCrop_small_noop (img : Option ImgGeometry) (ctx : Bool) (u : String)
    (st : CropAppState) (r : CropRect) (hr : st.cropRect = some r)
    (hsmall : r.w < 5 ∨ r.h < 5) :
    applyCrop img ctx u st = { state := st, drawn := none } := by
  obtain ⟨fd, cs, cr⟩ := st
  change cr = some r at hr
  subst hr
  cases img with
  | none => rw [applyCrop.eq_def]
  | some g =>
    rw [applyCrop.eq_def]
    dsimp only
    rw [if_pos hsmall]

/-- Witness for applyCrop_small_noop at a concrete input. -/
theorem applyCrop_small_noop_witness :
    applyCrop (some demoGeometry) true "data:image/png;base64,AAAA"
      { formData := emptyFormState, cropSource := some "s", cropRect := some demoRectSmall } =
    { state := { formData := emptyFormState, cropSource := some "s", cropRect := some demoRectSmall },
      drawn := none } :=
  applyCrop_small_noop _ true _ _ demoRectSmall rfl (Or.inl (by norm_num [demoRectSmall]))

/-- C5: uploading a file whose MIME kind is neither image/png nor
image/jpeg starts no asynchronous read, leaves all four signature-image
fields (and the whole form record) unchanged, clears the file-input value
so the same filename can be chosen again, and surfaces an error message. -/
theorem onSignatureUpload_rejects (s : FormState) (error0 : Option String)
    (f : FileInfo) (readResult : Except String String)
    (dimResult : Except String FittedDimensions)
    (hf : ¬ (f.type = "image/png" ∨ f.type = "image/jpeg")) :
    (onSignatureUpload s error0 (some f) readResult dimResult).reads = [] ∧
    (onSignatureUpload s error0 (some f) readResult dimResult).formData = s ∧
    (onSignatureUpload s error0 (some f) readResult dimResult).formData.signatureImageDataUrl =
      s.signatureImageDataUrl ∧
    (onSignatureUpload s error0 (some f) readResult dimResult).formData.signatureImageMimeType =
      s.signatureImageMimeType ∧
    (onSignatureUpload s error0 (some f) readResult dimResult).formData.signatureImageWidth =
      s.signatureImageWidth ∧
    (onSignatureUpload s error0 (some f) readResult dimResult).formData.signatureImageHeight =
      s.signatureImageHeight ∧
    (onSignatureUpload s error0 (some f) readResult dimResult).inputCleared = true ∧
    (onSignatureUpload s error0 (some f) readResult dimResult).error =
      some "Use a PNG or JPEG for the signature." := by
  rw [onSignatureUpload.eq_def]
  dsimp only
  rw [if_pos hf]
  exact ⟨rfl, rfl, rfl, rfl, rfl, rfl, rfl, rfl⟩

/-- Witness for onSignatureUpload_rejects on an image/gif upload. -/
theorem onSignatureUpload_rejects_witness :
    (onSignatureUpload emptyFormState none (some { type := "image/gif" })
      (Except.ok "data:image/gif;base64,AAAA") (Except.ok { width := 3, height := 4 })).reads = [] ∧
    (onSignatureUpload emptyFormState none (some { type := "image/gif" })
      (Except.ok "data:image/gif;base64,AAAA") (Except.ok { width := 3, height := 4 })).formData =
      emptyFormState := by
  have h := onSignatureUpload_rejects emptyFormState none { type := "image/gif" }
    (Except.ok "data:image/gif;base64,AAAA") (Except.ok { width := 3, height := 4 })
    (by decide)
  exact ⟨h.1, h.2.1⟩

/-- C9: the export filename is a deterministic function of the whitespace
normalized student identifier plus the format extension, with the fixed
fallback name consent-form used when the normalized identifier is empty. -/
theorem filename_spec (fd : FormState) (ext : String) :
    (normalizeText fd.idNumber = "" → filename fd ext = "consent-form" ++ "." ++ ext) ∧
    (normalizeText fd.idNumber ≠ "" →
      filename fd ext = normalizeText fd.idNumber ++ "." ++ ext) ∧
    (∀ fd' : FormState, fd'.idNumber = fd.idNumber → filename fd' ext = filename fd ext) := by
  refine ⟨?_, ?_, ?_⟩
  · intro h
    rw [filename, jsOr, if_pos h]
  · intro h
    rw [filename, jsOr, if_neg h]
  · intro fd' h
    rw [filename, filename, h]

/-- Witness for filename_spec at concrete inputs. -/
theorem filename_spec_witness :
    filename emptyFormState "pdf" = "consent-form" ++ "." ++ "pdf" ∧
    filename { emptyFormState with idNumber := " 2024A7PS0000P " } "docx" =
      normalizeText " 2024A7PS0000P " ++ "." ++ "docx" :=
  ⟨(filename_spec emptyFormState "pdf").1 (by decide),
   (filename_spec { emptyFormState with idNumber := " 2024A7PS0000P " } "docx").2.1
     (by decide)⟩

lemma isPosInt_intCast (z : ℤ) (h : 1 ≤ z) : isPosInt (z : ℚ) :=
  ⟨by exact_mod_cast h, Rat.den_intCast z⟩

/-- C8 (amended): clearSignature and reset always restore the all-empty
signature state; a successful upload preserves the invariant provided the
decoded data URL is nonempty and the measured dimensions are positive
integers (as any decodable PNG or JPEG reports); applyCrop preserves it
provided each rounded output dimension is at least one source pixel,
which holds in particular whenever the image is not displayed above its
natural size. -/
theorem sigInvariant_preserved :
    (∀ st : CropAppState, SigInvariant (clearSignature st).formData) ∧
    (∀ init : FormState, SigInvariant (resetFormData init)) ∧
    (∀ (s : FormState) (e : Option String) (file : Option FileInfo)
        (rr : Except String String) (dr : Except String FittedDimensions),
        SigInvariant s →
        (∀ u, rr = Except.ok u → u ≠ "") →
        (∀ d, dr = Except.ok d → isPosInt d.width ∧ isPosInt d.height) →
        SigInvariant (onSignatureUpload s e file rr dr).formData) ∧
    (∀ (img : Option ImgGeometry) (ctx : Bool) (u : String) (st : CropAppState),
        SigInvariant st.formData → u ≠ "" →
        (∀ (g : ImgGeometry) (r : CropRect), img = some g → st.cropRect = some r →
          1 ≤ jround (r.w * (g.naturalWidth / g.clientWidth)) ∧
          1 ≤ jround (r.h * (g.naturalHeight / g.clientHeight))) →
        SigInvariant (applyCrop img ctx u st).state.formData) := by
  refine ⟨?_, ?_, ?_, ?_⟩
  · intro st
    exact Or.inr ⟨rfl, rfl, rfl, rfl⟩
  · intro init
    exact Or.inr ⟨rfl, rfl, rfl, rfl⟩
  · intro s e file rr dr hs hread hdim
    cases file with
    | none => exact hs
    | some f =>
      rw [onSignatureUpload.eq_def]
      dsimp only
      by_cases hf : ¬ (f.type = "image/png" ∨ f.type = "image/jpeg")
      · rw [if_pos hf]
        exact hs
      · rw [if_neg hf]
        cases rr with
        | error msg => exact hs
        | ok dataUrl =>
          cases dr with
          | error msg => exact hs
          | ok dim =>
            left
            refine ⟨hread dataUrl rfl, (hdim dim rfl).1, (hdim dim rfl).2, ?_⟩
            exact not_not.mp hf
  · intro img ctx u st hst hu hround
    cases img with
    | none =>
      rw [applyCrop.eq_def]
      exact hst
    | some g =>
      obtain ⟨fd, cs, cr⟩ := st
      cases cr with
      | none =>
        rw [applyCrop.eq_def]
        exact hst
      | some r =>
        rw [applyCrop.eq_def]
        dsimp only
        by_cases hsmall : r.w < 5 ∨ r.h < 5
        · rw [if_pos hsmall]
          exact hst
        · rw [if_neg hsmall]
          cases ctx with
          | false => exact hst
          | true =>
            rw [if_neg (by decide : ¬ (true = false))]
            left
            refine ⟨hu, ?_, ?_, Or.inl rfl⟩
            · exact isPosInt_intCast _ (hround g r rfl rfl).1
            · exact isPosInt_intCast _ (hround g r rfl rfl).2

/-- Witness for sigInvariant_preserved at concrete inputs. -/
theorem sigInvariant_preserved_witness :
    SigInvariant (clearSignature { formData := emptyFormState, cropSource := none, cropRect := none }).formData ∧
    SigInvariant (resetFormData emptyFormState) ∧
    SigInvariant (onSignatureUpload emptyFormState none (some { type := "image/png" })
      (Except.ok "data:image/png;base64,AAAA") (Except.ok { width := 3, height := 4 })).formData ∧
    SigInvariant (applyCrop (some demoGeometry) true "data:image/png;base64,AAAA"
      { formData := emptyFormState, cropSource := some "s", cropRect := some demoRect }).state.formData := by
  refine ⟨sigInvariant_preserved.1 _, sigInvariant_preserved.2.1 _, ?_, ?_⟩
  · apply sigInvariant_preserved.2.2.1
    · exact Or.inr ⟨rfl, rfl, rfl, rfl⟩
    · intro v hv
      cases hv
      decide
    · intro d hd
      cases hd
      constructor
      · exact ⟨by norm_num, rfl⟩
      · exact ⟨by norm_num, rfl⟩
  · apply sigInvariant_preserved.2.2.2
    · exact Or.inr ⟨rfl, rfl, rfl, rfl⟩
    · decide
    · intro g r hg hr
      simp only [Option.some.injEq] at hg hr
      subst hg
      subst hr
      constructor
      · rw [(by norm_num [demoRect, demoGeometry, jround] :
          jround (demoRect.w * (demoGeometry.naturalWidth / demoGeometry.clientWidth)) = 100)]
        norm_num
      · rw [(by norm_num [demoRect, demoGeometry, jround] :
          jround (demoRect.h * (demoGeometry.naturalHeight / demoGeometry.clientHeight)) = 80)]
        norm_num

/-- The pre-crop state of the counterexample: a valid one-pixel signature
image with a selection of 10 by 10 display pixels. -/
def cexState : CropAppState :=
  { formData :=
      { emptyFormState with
        signatureImageDataUrl := "data:image/png;base64,BBBB",
        signatureImageMimeType := "image/png",
        signatureImageWidth := 1,
        signatureImageHeight := 1 },
    cropSource := some "data:image/png;base64,BBBB",
    cropRect := some { x := 0, y := 0, w := 10, h := 10 } }

/-- The counterexample geometry: a 1 by 1 image displayed at 100 by 100. -/
def cexGeometry : ImgGeometry :=
  { naturalWidth := 1, naturalHeight := 1, clientWidth := 100, clientHeight := 100 }

/-- Counterexample to C8 as stated: on an upscaled display (natural 1 by 1
image shown at 100 by 100) a valid 10 by 10 selection rounds both output
dimensions to zero, so applyCrop moves a state satisfying the
all-or-nothing invariant to one violating it (data reference present,
dimensions zero). -/
theorem sigInvariant_crop_counterexample :
    SigInvariant cexState.formData ∧
    ¬ SigInvariant (applyCrop (some cexGeometry) true "data:image/png;base64,AAAA"
      cexState).state.formData := by
  have hw : (applyCrop (some cexGeometry) true "data:image/png;base64,AAAA"
      cexState).state.formData.signatureImageWidth = 0 := by
    rw [applyCrop.eq_def]
    dsimp only [cexState, cexGeometry]
    rw [if_neg (by norm_num : ¬ ((10 : ℚ) < 5 ∨ (10 : ℚ) < 5)),
      if_neg (by decide : ¬ (true = false))]
    dsimp only
    rw [(by norm_num [jround] : jround ((10 : ℚ) * (1 / 100)) = 0)]
    norm_num
  have hurl : (applyCrop (some cexGeometry) true "data:image/png;base64,AAAA"
      cexState).state.formData.signatureImageDataUrl = "data:image/png;base64,AAAA" := by
    rw [applyCrop.eq_def]
    dsimp only [cexState, cexGeometry]
    rw [if_neg (by norm_num : ¬ ((10 : ℚ) < 5 ∨ (10 : ℚ) < 5)),
      if_neg (by decide : ¬ (true = false))]
  constructor
  · exact Or.inl ⟨by decide, ⟨by norm_num [cexState, emptyFormState], rfl⟩,
      ⟨by norm_num [cexState, emptyFormState], rfl⟩, Or.inl rfl⟩
  · intro h
    rcases h with ⟨_, hpos, _, _⟩ | ⟨hempty, _, _, _⟩
    · rw [hw] at hpos
      exact absurd hpos.1 (by norm_num)
    · rw [hurl] at hempty
      exact absurd hempty (by decide)

/-- C1: each renderer is a deterministic pure function of its inputs: any
two outcomes of the overlay build relation for the same FieldRecord, font
metric and fetched template are equal, and any two outcomes of the flow
build relation for the same FieldRecord and signature image are equal
(the container packaging step, where the format may add generation
timestamps, lies outside both relations). -/
theorem renderers_deterministic :
    (∀ (cw : Char → ℚ) (fd : FormState) (t : TemplateFetch)
        (o₁ o₂ : Except String (List PdfOp)),
        BuildPdf cw fd t o₁ → BuildPdf cw fd t o₂ → o₁ = o₂) ∧
    (∀ (fd : FormState) (sig : Option DocSignatureImage) (p₁ p₂ : List DocxParagraph),
        BuildDocx fd sig p₁ → BuildDocx fd sig p₂ → p₁ = p₂) := by
  constructor
  · intro cw fd t o₁ o₂ h₁ h₂
    cases h₁ <;> cases h₂ <;> rfl
  · intro fd sig p₁ p₂ h₁ h₂
    cases h₁
    cases h₂
    rfl

/-- Witness for renderers_deterministic at a concrete input. -/
theorem renderers_deterministic_witness :
    (Except.ok (buildPdfOps (fun _ => 1) 842 emptyFormState) : Except String (List PdfOp)) =
      Except.ok (buildPdfOps (fun _ => 1) 842 emptyFormState) ∧
    buildDocxDocument emptyFormState none = buildDocxDocument emptyFormState none :=
  ⟨renderers_deterministic.1 (fun _ => 1) emptyFormState (TemplateFetch.ok 842) _ _
      (BuildPdf.rendered 842) (BuildPdf.rendered 842),
   renderers_deterministic.2 emptyFormState none _ _ BuildDocx.built BuildDocx.built⟩

lemma padEnd_length (s : String) (n : ℕ) : (padEnd s n).length = max s.length n := by
  have h : (padEnd s n).length = s.length + (n - s.length) := by
    simp [padEnd]
  omega

/-- C7: with no signature image the overlay renderer draws the fallback
signature text (signatureName, else fullName) as a masked, underlined
line at the signature anchor, and the flow renderer emits it as an
underlined run space-padded to at least 24 characters; with an image
present the overlay renderer draws the image at dimensions produced by
fitWithin in the 138 by 40 signature box (centered on both axes), and the
flow pipeline builds the embedded image through fitWithin in the 220 by
70 box and the flow renderer uses it in place of the text run. -/
theorem signature_branches (cw : Char → ℚ) (pageHeight : ℚ) (fd : FormState)
    (decode : String → List ℕ) :
    (fd.signatureImageDataUrl = "" →
      pdfSignatureOps cw pageHeight fd =
        maskField pageHeight 56.8 428.501 138 14 ::
        PdfOp.line 56.8 (pageHeight - 428.501 + 1.2 - 2) (56.8 + 138)
          (pageHeight - 428.501 + 1.2 - 2) 0.5 ::
        (if fitTextToWidth cw (jsOr fd.signatureName fd.fullName) 138 11.5 = "" then []
          else [PdfOp.text (fitTextToWidth cw (jsOr fd.signatureName fd.fullName) 138 11.5)
            56.8 (pageHeight - 428.501 + 1.2) 11.5])) ∧
    (fd.signatureImageDataUrl ≠ "" →
      pdfSignatureOps cw pageHeight fd =
        [PdfOp.image (jsIncludes fd.signatureImageMimeType "png")
          (56.8 + (138 - (fitWithin fd.signatureImageWidth fd.signatureImageHeight 138 40).width) / 2)
          (pageHeight - 385.4 - (fitWithin fd.signatureImageWidth fd.signatureImageHeight 138 40).height -
            (40 - (fitWithin fd.signatureImageWidth fd.signatureImageHeight 138 40).height) / 2)
          (fitWithin fd.signatureImageWidth fd.signatureImageHeight 138 40).width
          (fitWithin fd.signatureImageWidth fd.signatureImageHeight 138 40).height]) ∧
    (∃ t : String,
      docxSignatureParagraph fd none =
        { runs := [DocxRun.underlined t], center := false, spacingAfter := 100,
          tabStopRight := none } ∧
      t = padEnd (normalizeText (jsOr fd.signatureName fd.fullName))
        (max 24 ((normalizeText (jsOr fd.signatureName fd.fullName)).length + 2)) ∧
      24 ≤ t.length) ∧
    (fd.signatureImageDataUrl ≠ "" →
      buildSigImage decode fd =
        some
          { data := decode fd.signatureImageDataUrl,
            type := if jsIncludes fd.signatureImageMimeType "png" then "png" else "jpg",
            width := (fitWithin fd.signatureImageWidth fd.signatureImageHeight 220 70).width,
            height := (fitWithin fd.signatureImageWidth fd.signatureImageHeight 220 70).height }) ∧
    (∀ sig : DocSignatureImage,
      docxSignatureParagraph fd (some sig) =
        { runs := [DocxRun.image sig.data sig.type sig.width sig.height], center := false,
          spacingAfter := 100, tabStopRight := none }) := by
  refine ⟨?_, ?_, ?_, ?_, ?_⟩
  · intro h
    rw [pdfSignatureOps, if_neg (by simp [h]), drawTextOnLine]
    simp
  · intro h
    rw [pdfSignatureOps, if_pos h]
  · refine ⟨padEnd (normalizeText (jsOr fd.signatureName fd.fullName))
      (max 24 ((normalizeText (jsOr fd.signatureName fd.fullName)).length + 2)), rfl, rfl, ?_⟩
    rw [padEnd_length]
    omega
  · intro h
    rw [buildSigImage, if_neg h]
  · intro sig
    rfl

/-- A FormState holding a 400 by 300 PNG signature image. -/
def imageFormState : FormState :=
  { emptyFormState with
    signatureImageDataUrl := "data:image/png;base64,CCCC",
    signatureImageMimeType := "image/png",
    signatureImageWidth := 400,
    signatureImageHeight := 300 }

/-- Witness for signature_branches at concrete inputs: the fallback branch
on a blank record, the image branch on imageFormState. -/
theorem signature_branches_witness :
    (pdfSignatureOps (fun _ => 1) 842 emptyFormState =
      maskField 842 56.8 428.501 138 14 ::
      PdfOp.line 56.8 (842 - 428.501 + 1.2 - 2) (56.8 + 138) (842 - 428.501 + 1.2 - 2) 0.5 ::
      (if fitTextToWidth (fun _ => 1) (jsOr emptyFormState.signatureName emptyFormState.fullName) 138 11.5 = "" then []
        else [PdfOp.text (fitTextToWidth (fun _ => 1) (jsOr emptyFormState.signatureName emptyFormState.fullName) 138 11.5)
          56.8 (842 - 428.501 + 1.2) 11.5])) ∧
    (pdfSignatureOps (fun _ => 1) 842 imageFormState =
      [PdfOp.image (jsIncludes imageFormState.signatureImageMimeType "png")
        (56.8 + (138 - (fitWithin imageFormState.signatureImageWidth imageFormState.signatureImageHeight 138 40).width) / 2)
        (842 - 385.4 - (fitWithin imageFormState.signatureImageWidth imageFormState.signatureImageHeight 138 40).height -
          (40 - (fitWithin imageFormState.signatureImageWidth imageFormState.signatureImageHeight 138 40).height) / 2)
        (fitWithin imageFormState.signatureImageWidth imageFormState.signatureImageHeight 138 40).width
        (fitWithin imageFormState.signatureImageWidth imageFormState.signatureImageHeight 138 40).height]) ∧
    (buildSigImage (fun _ => []) imageFormState =
      some
        { data := [],
          type := if jsIncludes imageFormState.signatureImageMimeType "png" then "png" else "jpg",
          width := (fitWithin imageFormState.signatureImageWidth imageFormState.signatureImageHeight 220 70).width,
          height := (fitWithin imageFormState.signatureImageWidth imageFormState.signatureImageHeight 220 70).height }) := by
  refine ⟨?_, ?_, ?_⟩
  · exact (signature_branches (fun _ => 1) 842 emptyFormState (fun _ => [])).1 rfl
  · exact (signature_branches (fun _ => 1) 842 imageFormState (fun _ => [])).2.1 (by decide)
  · exact (signature_branches (fun _ => 1) 842 imageFormState (fun _ => [])).2.2.2.1 (by decide)

lemma widthOfTextAtSize_append (cw : Char → ℚ) (s t : String) (size : ℚ) :
    widthOfTextAtSize cw (s ++ t) size =
      widthOfTextAtSize cw s size + widthOfTextAtSize cw t size := by
  rw [widthOfTextAtSize, widthOfTextAtSize, widthOfTextAtSize, String.data_append,
    List.map_append, List.sum_append, add_mul]

lemma widthOfTextAtSize_ellipsis_pos (cw : Char → ℚ) (hcw : ∀ c, 0 < cw c)
    (size : ℚ) (hsize : 0 < size) : 0 < widthOfTextAtSize cw "..." size := by
  rw [widthOfTextAtSize]
  have hc := hcw '.'
  have hsum : (("...".data).map cw).sum = cw '.' + (cw '.' + (cw '.' + 0)) := rfl
  rw [hsum]
  have h1 : 0 < cw '.' + (cw '.' + (cw '.' + 0)) := by linarith
  exact mul_pos h1 hsize

lemma fitLoopRev_cases (cw : Char → ℚ) (mw size : ℚ) (rl : List Char) :
    fitLoopRev cw mw size rl = "" ∨
    ∃ ds : List Char, ds.reverse <:+ rl ∧
      fitLoopRev cw mw size rl = String.mk ds ++ "..." ∧
      widthOfTextAtSize cw (String.mk ds ++ "...") size ≤ mw := by
  induction rl with
  | nil => exact Or.inl rfl
  | cons c rest ih =>
    by_cases h : widthOfTextAtSize cw (String.mk ((c :: rest).reverse) ++ "...") size ≤ mw
    · refine Or.inr ⟨(c :: rest).reverse, ?_, ?_, h⟩
      · rw [List.reverse_reverse]
      · simp only [fitLoopRev]
        rw [if_pos h]
    · have hstep : fitLoopRev cw mw size (c :: rest) = fitLoopRev cw mw size rest := by
        simp only [fitLoopRev]
        rw [if_neg h]
      rcases ih with h0 | ⟨ds, hsuf, heq, hwle⟩
      · exact Or.inl (hstep.trans h0)
      · exact Or.inr ⟨ds, hsuf.trans (List.suffix_cons c rest), hstep.trans heq, hwle⟩

/-- C3 (amended): a value that normalizes to the empty string yields the
empty fitted text and drawTextOnLine draws no text operation for it; a
nonempty normalized value whose rendered width fits within maxWidth is
returned unchanged; a nonempty normalized value whose rendered width
exceeds maxWidth yields either a proper initial segment of it followed by
an ellipsis whose rendered width fits within maxWidth, or the empty
string (nothing drawn) when no initial segment with the ellipsis fits. -/
theorem fitTextToWidth_spec (cw : Char → ℚ) (hcw : ∀ c, 0 < cw c)
    (value : String) (mw size : ℚ) (hsize : 0 < size) :
    (normalizeText value = "" →
      fitTextToWidth cw value mw size = "" ∧
      ∀ (pageHeight x yMax : ℚ) (mask underline : Bool),
        (drawTextOnLine cw pageHeight value x yMax mw size mask underline).filter
          PdfOp.isText = []) ∧
    (normalizeText value ≠ "" →
      widthOfTextAtSize cw (normalizeText value) size ≤ mw →
      fitTextToWidth cw value mw size = normalizeText value) ∧
    (normalizeText value ≠ "" →
      mw < widthOfTextAtSize cw (normalizeText value) size →
      fitTextToWidth cw value mw size = "" ∨
      ∃ p : String, p.data <+: (normalizeText value).data ∧ p ≠ normalizeText value ∧
        fitTextToWidth cw value mw size = p ++ "..." ∧
        widthOfTextAtSize cw (p ++ "...") size ≤ mw) := by
  refine ⟨?_, ?_, ?_⟩
  · intro h
    have hfit : fitTextToWidth cw value mw size = "" := by
      rw [fitTextToWidth, if_pos h]
    refine ⟨hfit, ?_⟩
    intro pageHeight x yMax mask underline
    rw [drawTextOnLine, if_pos hfit]
    cases mask <;> cases underline <;>
      simp [maskField, PdfOp.isText, List.filter_append]
  · intro h hle
    rw [fitTextToWidth, if_neg h, if_pos hle]
  · intro h hgt
    rw [fitTextToWidth, if_neg h, if_neg (not_le.mpr hgt)]
    rcases fitLoopRev_cases cw mw size (normalizeText value).data.reverse with h0 | hex
    · exact Or.inl h0
    · obtain ⟨ds, hsuf, heq, hwle⟩ := hex
      refine Or.inr ⟨String.mk ds, List.reverse_suffix.mp hsuf, ?_, heq, hwle⟩
      intro hcontra
      have hds : ds = (normalizeText value).data := congrArg String.data hcontra
      subst hds
      have hfull : String.mk (normalizeText value).data = normalizeText value := rfl
      rw [hfull, widthOfTextAtSize_append] at hwle
      have hpos := widthOfTextAtSize_ellipsis_pos cw hcw size hsize
      linarith

/-- Widths under the unit-width character table. -/
lemma widthOfTextAtSize_const_one (s : String) (size : ℚ) :
    widthOfTextAtSize (fun _ => 1) s size = s.length * size := by
  rw [widthOfTextAtSize]
  have hsum : ∀ l : List Char, (l.map (fun _ => (1 : ℚ))).sum = l.length := by
    intro l
    induction l with
    | nil => simp
    | cons c cs ih =>
      rw [List.map_cons, List.sum_cons, ih, List.length_cons]
      push_cast
      ring
  rw [hsum]
  rfl

/-- Witness for fitTextToWidth_spec at concrete inputs: a short value fits
unchanged, an all-whitespace value yields the empty fitted text. -/
theorem fitTextToWidth_spec_witness :
    fitTextToWidth (fun _ => 1) "John" 100 12 = normalizeText "John" ∧
    fitTextToWidth (fun _ => 1) "   " 100 12 = "" := by
  constructor
  · refine (fitTextToWidth_spec (fun _ => 1) (fun _ => one_pos) "John" 100 12
      (by norm_num)).2.1 (by decide) ?_
    rw [(by decide : normalizeText "John" = "John"), widthOfTextAtSize_const_one,
      (by decide : ("John" : String).length = 4)]
    norm_num
  · exact ((fitTextToWidth_spec (fun _ => 1) (fun _ => one_pos) "   " 100 12
      (by norm_num)).1 (by decide)).1

/-- Counterexample to C3 as stated: with unit character widths at size 1
and maxWidth 1, the value ab normalizes to itself, its rendered width 2
exceeds maxWidth, and the fitting step returns the empty string (drawing
nothing), not a proper initial segment followed by an ellipsis. -/
theorem fitTextToWidth_counterexample :
    normalizeText "ab" = "ab" ∧
    (1 : ℚ) < widthOfTextAtSize (fun _ => 1) (normalizeText "ab") 1 ∧
    fitTextToWidth (fun _ => 1) "ab" 1 1 = "" ∧
    ¬ ∃ p : String, fitTextToWidth (fun _ => 1) "ab" 1 1 = p ++ "..." := by
  have hn : normalizeText "ab" = "ab" := by decide
  have hwidth : widthOfTextAtSize (fun _ => 1) (normalizeText "ab") 1 = 2 := by
    rw [hn, widthOfTextAtSize_const_one, (by decide : ("ab" : String).length = 2)]
    norm_num
  have hempty : fitTextToWidth (fun _ => 1) "ab" 1 1 = "" := by
    rw [fitTextToWidth, hn]
    rw [if_neg (by decide : ¬ ("ab" : String) = "")]
    rw [widthOfTextAtSize_const_one, (by decide : ("ab" : String).length = 2)]
    rw [if_neg (by norm_num : ¬ (((2 : ℕ) : ℚ) * 1 ≤ 1))]
    rw [(by decide : ("ab" : String).data.reverse = ['b', 'a'])]
    have s1 : fitLoopRev (fun _ => 1) 1 1 ['b', 'a'] = fitLoopRev (fun _ => 1) 1 1 ['a'] := by
      simp only [fitLoopRev]
      rw [if_neg]
      rw [widthOfTextAtSize_const_one,
        (by decide : (String.mk (['b', 'a'].reverse) ++ "..." : String).length = 5)]
      norm_num
    have s2 : fitLoopRev (fun _ => 1) 1 1 ['a'] = fitLoopRev (fun _ => 1) 1 1 ([] : List Char) := by
      simp only [fitLoopRev]
      rw [if_neg]
      rw [widthOfTextAtSize_const_one,
        (by decide : (String.mk (['a'].reverse) ++ "..." : String).length = 4)]
      norm_num
    rw [s1, s2]
    rfl
  refine ⟨hn, by rw [hwidth]; norm_num, hempty, ?_⟩
  rintro ⟨p, hp⟩
  rw [hempty] at hp
  have hlen := congrArg String.length hp
  rw [String.length_append] at hlen
  rw [(by decide : ("..." : String).length = 3)] at hlen
  rw [(by decide : ("" : String).length = 0)] at hlen
  omega
